import Mathlib

/-!
Shallow embedding of the Realm session/handle layer declared in
`src/Realm/ObjectStore/shared_realm.hpp` (class `Realm`, class `RealmException`,
class `RealmCache`).

The header contains several fully inline method bodies, which are embedded
directly from the source:
  * `is_in_transaction() { return m_in_transaction; }`
  * `set_auto_refresh(bool b) { m_auto_refresh = b; }` and
    `auto_refresh() { return m_auto_refresh; }`
  * `add_notification(n) { m_notifications.insert(n); }` over a
    `std::set` keyed by the listener's identity
  * `remove_notification(n) { m_notifications.erase(n); }`
  * `send_external_notifications() { if (m_external_notifier) (*m_external_notifier)(); }`
  * `config()`, `thread_id()`, and the two event-name string constants.

The remaining method bodies (`get_shared_realm`, `update_schema`,
`begin_transaction`, `commit_transaction`, `cancel_transaction`, `refresh`,
`notify`, `invalidate`, `compact`, `send_local_notifications`,
`verify_thread`, the `Realm` constructor and the `RealmCache` methods) are
declared in the header but their translation unit is not part of the
repository snapshot; those are modelled from the specification, with a
doc comment on each such definition saying so.

Machine state is passed explicitly: an operation takes the calling thread
identifier and the `Realm` value and returns its result together with the
updated state (and, where relevant, the list of notification firings it
produced).  A C++ exception is modelled as an `Except.error` result paired
with the state as it stands when the exception leaves the method.
-/

namespace RealmSpec

/-- Error taxonomy, embedded from `RealmException::Kind` in the header. -/
inductive Kind where
  | MismatchedConfig
  | FileAccessError
  | FilePermissionDenied
  | FileExists
  | FileNotFound
  | IncompatibleLockFile
  | InvalidTransaction
  | IncorrectThread
  | InvalidSchemaVersion
  | MissingPropertyValue
deriving DecidableEq, Repr

/-- `ObjectStore::Schema` is opaque to this layer; the spec describes it as a
table/column structure, which is all migration comparison needs: a list of
tables, each a name with a list of column names. -/
abbrev Schema : Type := List (String × List String)

/-- `Realm::Config`, embedded from the header: path, read_only, in_memory,
encryption_key, optional target schema, target schema_version, optional
migration_function.  The migration callback is modelled as a function from
the old and new schema to `true` on success and `false` when the callback
fails (a C++ callback failure is a thrown exception). -/
structure Config where
  path : String
  read_only : Bool
  in_memory : Bool
  encryption_key : Option String
  schema : Option Schema
  schema_version : Nat
  migration_function : Option (Schema → Schema → Bool)

/-- The opaque storage-engine connection (`m_shared_group`): the spec exposes
only begin_write/commit/rollback plus the connection slot itself, so the
model records whether a write transaction is open, how many write
transactions have been committed (which doubles as the committed version the
handle's view sits at), and whether the connection is still attached
(`invalidate()` releases it eagerly). -/
structure Engine where
  committed : Nat
  in_write : Bool
  connected : Bool
deriving DecidableEq, Repr

/-- Commit the engine's current write transaction. -/
def Engine.commit (e : Engine) : Engine :=
  { e with committed := e.committed + 1, in_write := false }

/-- Roll back the engine's current write transaction. -/
def Engine.rollback (e : Engine) : Engine :=
  { e with in_write := false }

/-- A local listener (`NotificationFunction`, a `std::shared_ptr`) is
identity-keyed; the model names each listener by its identity. -/
abbrev Listener : Type := Nat

/-- The `Realm` handle state, embedded from the private section of the header:
`m_config`, `m_thread_id`, `m_in_transaction`, `m_auto_refresh`,
`m_notifications` (a `std::set`, modelled as a duplicate-free list of listener
identities), `m_external_notifier` (presence of the hook), and the
storage-engine connection. -/
structure Realm where
  m_config : Config
  m_thread_id : Nat
  m_in_transaction : Bool
  m_auto_refresh : Bool
  m_notifications : List Listener
  m_external_notifier : Option Unit
  m_shared_group : Engine

/-- Event-name constant from the header. -/
def DidChangeNotification : String := "DidChangeNotification"

/-- Event-name constant from the header. -/
def RefreshRequiredNotification : String := "RefreshRequiredNotification"

/-- One observable notification firing: a local listener invoked with an event
name, or the single external notifier hook being invoked. -/
inductive Firing where
  | localFiring (listener : Listener) (name : String)
  | externalFiring
deriving DecidableEq

/-- Embedded from the inline header body: `is_in_transaction()` returns
`m_in_transaction`.  It reads a single field and returns it, so it is a pure
observer of the state. -/
def is_in_transaction (r : Realm) : Bool := r.m_in_transaction

/-- Embedded from the inline header body: `auto_refresh()` returns
`m_auto_refresh`. -/
def auto_refresh (r : Realm) : Bool := r.m_auto_refresh

/-- Embedded from the inline header body: `set_auto_refresh(b)` assigns
`m_auto_refresh = b` and touches nothing else. -/
def set_auto_refresh (b : Bool) (r : Realm) : Realm :=
  { r with m_auto_refresh := b }

/-- `std::set::insert` on the identity-keyed listener set: inserting an
element already present leaves the set unchanged. -/
def listener_insert (l : Listener) (s : List Listener) : List Listener :=
  if l ∈ s then s else l :: s

/-- Embedded from the inline header body: `add_notification(n)` performs
`m_notifications.insert(n)`.  The registration token is the listener's own
identity (the same `shared_ptr` is later handed to `remove_notification`). -/
def add_notification (l : Listener) (r : Realm) : Realm :=
  { r with m_notifications := listener_insert l r.m_notifications }

/-- Embedded from the inline header body: `remove_notification(n)` performs
`m_notifications.erase(n)`: it removes the registration for that key when
present and does nothing otherwise. -/
def remove_notification (l : Listener) (r : Realm) : Realm :=
  { r with m_notifications := r.m_notifications.erase l }

/-- Invoking `add_notification` from a given calling thread.  The inline
header body is exactly `{ m_notifications.insert(notification); }`: it
contains no `verify_thread()` call and no failure path, so the call succeeds
and mutates the listener set whatever thread invokes it. -/
def add_notification_call (_t : Nat) (r : Realm) (l : Listener) :
    Except Kind Unit × Realm :=
  (Except.ok (), add_notification l r)

/-- Invoking `remove_notification` from a given calling thread.  Like
`add_notification`, the inline header body is a bare `m_notifications.erase`
with no `verify_thread()` call and no failure path. -/
def remove_notification_call (_t : Nat) (r : Realm) (l : Listener) :
    Except Kind Unit × Realm :=
  (Except.ok (), remove_notification l r)

/-- Modelled from the spec: `send_local_notifications(name)` (declared in
the header; its body is in the missing translation unit) invokes every
currently registered local listener once with the event name, over a
snapshot of the set. -/
def send_local_notifications (r : Realm) (name : String) : List Firing :=
  r.m_notifications.map (fun l => Firing.localFiring l name)

/-- Embedded from the inline header body: `send_external_notifications()`
invokes the external notifier hook exactly when one is set. -/
def send_external_notifications (r : Realm) : List Firing :=
  match r.m_external_notifier with
  | some _ => [Firing.externalFiring]
  | none => []

/-- Modelled from the spec: `verify_thread()` compares the calling thread to
the affinity thread captured at construction and fails with `IncorrectThread`
on mismatch (the body lives in the missing translation unit). -/
def verify_thread (t : Nat) (r : Realm) : Except Kind Unit :=
  if t = r.m_thread_id then Except.ok () else Except.error Kind.IncorrectThread

/-- Modelled from the spec: the `Realm(Config&)` constructor (body missing
from the snapshot) captures the creating thread as the affinity thread and
starts with the transaction state Idle, an empty listener set and no external
notifier. -/
def realm_init (c : Config) (t : Nat) : Realm :=
  { m_config := c
    m_thread_id := t
    m_in_transaction := false
    m_auto_refresh := true
    m_notifications := []
    m_external_notifier := none
    m_shared_group := { committed := 0, in_write := false, connected := true } }

/-- Modelled from the spec: `begin_transaction()` (body missing from the
snapshot) verifies the thread, fails with `InvalidTransaction` when already
in a write transaction, and otherwise starts a write transaction against the
storage engine and records InTransaction.  On failure the state is returned
untouched. -/
def begin_transaction (t : Nat) (r : Realm) : Except Kind Unit × Realm :=
  match verify_thread t r with
  | Except.error k => (Except.error k, r)
  | Except.ok _ =>
    if r.m_in_transaction then (Except.error Kind.InvalidTransaction, r)
    else
      (Except.ok (),
       { r with m_in_transaction := true
                m_shared_group := { r.m_shared_group with in_write := true } })

/-- Modelled from the spec: `commit_transaction()` (body missing from the
snapshot) verifies the thread, fails with `InvalidTransaction` when Idle, and
otherwise commits the engine's write transaction, records Idle, then fires
`send_local_notifications(DidChangeNotification)` followed by
`send_external_notifications()`.  The third component is the list of firings
the call produced, in order. -/
def commit_transaction (t : Nat) (r : Realm) :
    Except Kind Unit × Realm × List Firing :=
  match verify_thread t r with
  | Except.error k => (Except.error k, r, [])
  | Except.ok _ =>
    if r.m_in_transaction then
      let r' : Realm :=
        { r with m_in_transaction := false
                 m_shared_group := r.m_shared_group.commit }
      (Except.ok (),
       r',
       send_local_notifications r' DidChangeNotification
         ++ send_external_notifications r')
    else (Except.error Kind.InvalidTransaction, r, [])

/-- Modelled from the spec: `cancel_transaction()` (body missing from the
snapshot) verifies the thread, fails with `InvalidTransaction` when Idle, and
otherwise rolls the engine's write transaction back and records Idle; no
notification is sent. -/
def cancel_transaction (t : Nat) (r : Realm) : Except Kind Unit × Realm :=
  match verify_thread t r with
  | Except.error k => (Except.error k, r)
  | Except.ok _ =>
    if r.m_in_transaction then
      (Except.ok (),
       { r with m_in_transaction := false
                m_shared_group := r.m_shared_group.rollback })
    else (Except.error Kind.InvalidTransaction, r)

/-- Modelled from the spec: `refresh()` (body missing from the snapshot)
verifies the thread, fails with `InvalidTransaction` while InTransaction (an
open transaction has a fixed, isolated view), and otherwise advances the
handle's view to `latest`, the latest committed version written by any
thread or process, returning whether the view actually changed; when it
changed, `RefreshRequiredNotification` is fired to the local listeners. -/
def refresh (t : Nat) (r : Realm) (latest : Nat) :
    Except Kind Bool × Realm × List Firing :=
  match verify_thread t r with
  | Except.error k => (Except.error k, r, [])
  | Except.ok _ =>
    if r.m_in_transaction then (Except.error Kind.InvalidTransaction, r, [])
    else if r.m_shared_group.committed = latest then (Except.ok false, r, [])
    else
      let r' : Realm :=
        { r with m_shared_group :=
            { r.m_shared_group with committed := latest } }
      (Except.ok true, r',
       send_local_notifications r' RefreshRequiredNotification)

/-- Modelled from the spec: `notify()` (body missing from the snapshot)
verifies the thread and, exactly when the auto-refresh flag is enabled,
performs a refresh with its associated notification dispatch; the controller
is purely reactive, so with auto-refresh disabled nothing happens. -/
def notify (t : Nat) (r : Realm) (latest : Nat) :
    Except Kind Unit × Realm × List Firing :=
  match verify_thread t r with
  | Except.error k => (Except.error k, r, [])
  | Except.ok _ =>
    if r.m_auto_refresh then
      let res := refresh t r latest
      (Except.ok (), res.2.1, res.2.2)
    else (Except.ok (), r, [])

/-- Modelled from the spec: `invalidate()` (body missing from the snapshot)
verifies the thread and releases the underlying storage-engine connection
eagerly, without destroying the Handle object itself; the downstream effect
that later engine accesses fail belongs to the out-of-scope storage
engine. -/
def invalidate (t : Nat) (r : Realm) : Except Kind Unit × Realm :=
  match verify_thread t r with
  | Except.error k => (Except.error k, r)
  | Except.ok _ =>
    (Except.ok (),
     { r with m_shared_group := { r.m_shared_group with connected := false } })

/-- Modelled from the spec: `compact()` (body missing from the snapshot)
verifies the thread, fails with `InvalidTransaction` while a transaction is
open, and otherwise asks the storage engine to reclaim unused file space (an
effect on the opaque on-disk representation, not on this layer's state). -/
def compact (t : Nat) (r : Realm) : Except Kind Bool × Realm :=
  match verify_thread t r with
  | Except.error k => (Except.error k, r)
  | Except.ok _ =>
    if r.m_in_transaction then (Except.error Kind.InvalidTransaction, r)
    else (Except.ok true, r)

/-- The persisted on-disk state that `update_schema` reads and writes: the
committed schema version and the committed table/column structure. -/
structure File where
  version : Nat
  schema : Schema
deriving DecidableEq

/-- An error leaving `update_schema`: either one of this layer's
`RealmException` kinds, or the migration callback's own error propagating out
of the migration transaction. -/
inductive UpdateSchemaError where
  | realmError (k : Kind)
  | migrationFailed
deriving DecidableEq, Repr

/-- Purely additive schema compatibility: every table of the old schema is
still present with all of its columns (the new schema only adds).  When this
fails and the schemas differ, a migration callback is required. -/
def additive_compatible (old new : Schema) : Bool :=
  old.all (fun tbl =>
    new.any (fun tbl2 =>
      tbl2.1 == tbl.1 && tbl.2.all (fun col => tbl2.2.contains col)))

/-- Modelled from the spec: `update_schema(schema, version)` (body missing
from the snapshot).  It verifies the thread, then reads the persisted version:
if it equals the target and the structure is identical it returns
`changed = false` with no transaction opened; if the target is strictly below
the persisted version it fails with `InvalidSchemaVersion` before any write;
otherwise it opens a privileged write transaction, requires a migration
callback when the structural change is not purely additive (failing with
`InvalidSchemaVersion` when none is supplied), invokes the callback, and on
any failure the transaction rolls back leaving the file untouched.  On
success the new structure and version are committed and the handle's Config
is updated in place, returning `changed = true`. -/
def update_schema (t : Nat) (r : Realm) (f : File) (schema : Schema)
    (version : Nat) : Except UpdateSchemaError Bool × Realm × File :=
  match verify_thread t r with
  | Except.error k => (Except.error (UpdateSchemaError.realmError k), r, f)
  | Except.ok _ =>
    if version = f.version ∧ schema = f.schema then
      (Except.ok false, r, f)
    else if version < f.version then
      (Except.error (UpdateSchemaError.realmError Kind.InvalidSchemaVersion), r, f)
    else
      -- privileged write transaction
      match r.m_config.migration_function with
      | some mf =>
        if mf f.schema schema then
          (Except.ok true,
           { r with m_config :=
               { r.m_config with schema := some schema, schema_version := version } },
           { version := version, schema := schema })
        else
          -- callback failure: rollback, file unchanged, error propagates
          (Except.error UpdateSchemaError.migrationFailed, r, f)
      | none =>
        if schema ≠ f.schema ∧ additive_compatible f.schema schema = false then
          -- a required migration callback is missing: rollback, file unchanged
          (Except.error (UpdateSchemaError.realmError Kind.InvalidSchemaVersion), r, f)
        else
          (Except.ok true,
           { r with m_config :=
               { r.m_config with schema := some schema, schema_version := version } },
           { version := version, schema := schema })

/-- The spec's transaction state machine has states {Idle, InTransaction};
the header realises the state as the boolean `m_in_transaction`. -/
inductive TransactionState where
  | Idle
  | InTransaction
deriving DecidableEq, Repr

/-- The abstraction map from the header's boolean field to the spec's state
machine. -/
def transaction_state (r : Realm) : TransactionState :=
  if r.m_in_transaction then TransactionState.InTransaction
  else TransactionState.Idle

/-!
## The process-wide handle cache (`RealmCache` and `get_shared_realm`)

Modelled from the spec: the bodies of `get_shared_realm` and of the
`RealmCache` methods are in the missing translation unit.  A `World` is the
process state: the live handles (each named by an allocation identifier,
standing for the `shared_ptr` object identity), a fresh-identifier counter,
and the cache mapping (path, thread) to a weak reference, i.e. a handle
identifier that may or may not still be live.  `drop_handle` models the last
strong reference to a handle going away; the weak cache entry it leaves
behind is exactly the stale entry the spec says is lazily purged.  File
opening and migration-at-open are not modelled here: they do not touch the
cache identity and configuration-validation behaviour this model covers
(migration is modelled separately by `update_schema`).
-/

/-- Process-wide state: live handles by identifier, the next fresh
identifier, and the `RealmCache` map from (path, thread) to a weak handle
reference. -/
structure World where
  live : List (Nat × Realm)
  next_id : Nat
  cache : String → Nat → Option Nat

/-- Upgrade a weak reference: a handle identifier yields a strong reference
exactly when the handle is still live. -/
def live_lookup (l : List (Nat × Realm)) (id : Nat) : Option Realm :=
  (l.find? (fun p => p.1 == id)).map (fun p => p.2)

/-- Modelled from the spec: `RealmCache::get_any_realm(path)` returns a
strong reference to any live handle for the path, regardless of thread. -/
def get_any_realm (l : List (Nat × Realm)) (path : String) : Option Realm :=
  (l.find? (fun p => p.2.m_config.path == path)).map (fun p => p.2)

/-- Store a weak cache entry for (path, thread), replacing any previous
entry. -/
def cache_store (path : String) (t : Nat) (id : Nat)
    (c : String → Nat → Option Nat) : String → Nat → Option Nat :=
  fun p' t' => if p' = path ∧ t' = t then some id else c p' t'

/-- Purge the (path, thread) cache entry (the lazy removal of a stale weak
reference). -/
def cache_purge (path : String) (t : Nat)
    (c : String → Nat → Option Nat) : String → Nat → Option Nat :=
  fun p' t' => if p' = path ∧ t' = t then none else c p' t'

/-- The configuration-compatibility check the spec requires across handles
sharing a path: `read_only` and `in_memory` must match exactly. -/
def config_conflict (a b : Config) : Bool :=
  a.read_only != b.read_only || a.in_memory != b.in_memory

/-- Drop the last strong reference to a handle: it disappears from the live
set while any cache entry naming it goes stale. -/
def drop_handle (id : Nat) (w : World) : World :=
  { w with live := w.live.filter (fun p => p.1 != id) }

/-- Modelled from the spec: constructing and registering a fresh handle when
the cache has no usable entry.  Opening validates access-mode consistency
against any already-live handle for the path (`MismatchedConfig`), then
constructs the handle on the calling thread and records a weak entry in the
cache. -/
def create_and_cache (c : Config) (t : Nat) (w : World) :
    Except Kind (Nat × World) :=
  let ok : Except Kind (Nat × World) :=
    Except.ok (w.next_id,
      { live := (w.next_id, realm_init c t) :: w.live
        next_id := w.next_id + 1
        cache := cache_store c.path t w.next_id w.cache })
  match get_any_realm w.live c.path with
  | some r => if config_conflict r.m_config c then Except.error Kind.MismatchedConfig else ok
  | none => ok

/-- Modelled from the spec: `Realm::get_shared_realm(config)` (body missing
from the snapshot).  Under the cache it looks up path → thread → weak entry;
when the entry upgrades, the existing handle's Configuration is validated
against the requested one (`MismatchedConfig` on read_only/in_memory
mismatch) and the same handle is returned; a stale entry is purged and a
fresh handle constructed; an absent entry constructs a fresh handle. -/
def get_shared_realm (c : Config) (t : Nat) (w : World) :
    Except Kind (Nat × World) :=
  match w.cache c.path t with
  | some id =>
    match live_lookup w.live id with
    | some r =>
      if config_conflict r.m_config c then Except.error Kind.MismatchedConfig
      else Except.ok (id, w)
    | none =>
      create_and_cache c t { w with cache := cache_purge c.path t w.cache }
  | none => create_and_cache c t w

/-- Every live handle's identifier is below the fresh-identifier counter. -/
def live_ids_bounded (w : World) : Prop :=
  ∀ p ∈ w.live, p.1 < w.next_id

/-- A cache entry that upgrades yields a handle actually opened at the path
it is cached under. -/
def cache_path_consistent (w : World) : Prop :=
  ∀ path t id, w.cache path t = some id →
    ∀ r, live_lookup w.live id = some r → r.m_config.path = path

/-- The spec's Configuration invariant as a state invariant: live handles
sharing a path agree on `read_only` and `in_memory`. -/
def config_coherent (w : World) : Prop :=
  ∀ p ∈ w.live, ∀ q ∈ w.live,
    p.2.m_config.path = q.2.m_config.path →
      p.2.m_config.read_only = q.2.m_config.read_only ∧
      p.2.m_config.in_memory = q.2.m_config.in_memory

/-- The reachable-state invariant of the handle-cache model. -/
def WorldInv (w : World) : Prop :=
  live_ids_bounded w ∧ cache_path_consistent w ∧ config_coherent w

/-- The empty process state: no live handles, no cache entries. -/
def world_empty : World :=
  { live := [], next_id := 0, cache := fun _ _ => none }

/-!
## Concrete sample states used to instantiate the theorems
-/

/-- A plain read-write on-disk configuration. -/
def configA : Config :=
  { path := "/tmp/a.realm"
    read_only := false
    in_memory := false
    encryption_key := none
    schema := none
    schema_version := 0
    migration_function := none }

/-- The same file requested read-only: conflicts with `configA`. -/
def configRO : Config :=
  { configA with read_only := true }

/-- A configuration whose migration callback always fails. -/
def configFail : Config :=
  { configA with migration_function := some (fun _ _ => false) }

/-- A freshly constructed idle handle on thread 0. -/
def realmIdle : Realm := realm_init configA 0

/-- A handle on thread 0 inside a write transaction, with one registered
listener and the external notifier hook set. -/
def realmBusy : Realm :=
  { m_config := configA
    m_thread_id := 0
    m_in_transaction := true
    m_auto_refresh := true
    m_notifications := [7]
    m_external_notifier := some ()
    m_shared_group := { committed := 0, in_write := true, connected := true } }

/-- A handle whose affinity thread is 1. -/
def realmT1 : Realm := realm_init configA 1

/-- A handle whose configuration carries the always-failing migration
callback. -/
def realmFail : Realm := realm_init configFail 0

/-- A file persisted at schema version 2. -/
def fileV2 : File := { version := 2, schema := [("Dog", ["name"])] }

/-- The process state after opening `configA` once on thread 0 from the empty
state. -/
def worldA : World :=
  { live := [(0, realm_init configA 0)]
    next_id := 1
    cache := cache_store configA.path 0 0 world_empty.cache }

/-!
## Helper lemmas
-/

lemma listener_insert_mem_self (l : Listener) (s : List Listener) :
    l ∈ listener_insert l s := by
  unfold listener_insert
  split
  · assumption
  · exact List.mem_cons_self l s

lemma listener_insert_idem (l : Listener) (s : List Listener) :
    listener_insert l (listener_insert l s) = listener_insert l s := by
  rw [listener_insert, if_pos (listener_insert_mem_self l s)]

lemma listener_insert_count (l : Listener) (s : List Listener)
    (hnd : s.Nodup) : (listener_insert l s).count l = 1 := by
  unfold listener_insert
  split
  · exact List.count_eq_one_of_mem hnd (by assumption)
  · rw [List.count_cons_self, List.count_eq_zero_of_not_mem (by assumption)]

lemma config_conflict_eq_false_iff (a b : Config) :
    config_conflict a b = false ↔
      a.read_only = b.read_only ∧ a.in_memory = b.in_memory := by
  simp [config_conflict]

lemma config_conflict_eq_true_iff (a b : Config) :
    config_conflict a b = true ↔
      a.read_only ≠ b.read_only ∨ a.in_memory ≠ b.in_memory := by
  simp [config_conflict]

lemma config_conflict_self (c : Config) : config_conflict c c = false := by
  simp [config_conflict]

lemma cache_store_lookup (path : String) (t id : Nat)
    (cc : String → Nat → Option Nat) :
    cache_store path t id cc path t = some id := by
  simp [cache_store]

lemma live_lookup_cons_self (id : Nat) (r : Realm) (l : List (Nat × Realm)) :
    live_lookup ((id, r) :: l) id = some r := by
  simp [live_lookup, List.find?_cons_of_pos]

lemma live_lookup_eq_none (id : Nat) (l : List (Nat × Realm))
    (h : ∀ p ∈ l, p.1 ≠ id) : live_lookup l id = none := by
  unfold live_lookup
  rw [List.find?_eq_none.mpr]
  · rfl
  · intro p hp
    simpa using h p hp

lemma live_lookup_mem (id : Nat) (l : List (Nat × Realm)) (r : Realm)
    (h : live_lookup l id = some r) : (id, r) ∈ l := by
  unfold live_lookup at h
  cases hf : l.find? (fun p => p.1 == id) with
  | none => rw [hf] at h; simp at h
  | some pr =>
    rw [hf] at h
    have hmem := List.mem_of_find?_eq_some hf
    have hpred := List.find?_some hf
    have h1 : pr.1 = id := by simpa using hpred
    have h2 : pr.2 = r := by simpa using h
    have : pr = (id, r) := by
      cases pr
      simp_all
    rwa [this] at hmem

lemma get_any_realm_mem (l : List (Nat × Realm)) (path : String) (r : Realm)
    (h : get_any_realm l path = some r) :
    (∃ i, (i, r) ∈ l) ∧ r.m_config.path = path := by
  unfold get_any_realm at h
  cases hf : l.find? (fun p => p.2.m_config.path == path) with
  | none => rw [hf] at h; simp at h
  | some pr =>
    rw [hf] at h
    have hmem := List.mem_of_find?_eq_some hf
    have hpred := List.find?_some hf
    have h2 : pr.2 = r := by simpa using h
    refine ⟨⟨pr.1, ?_⟩, ?_⟩
    · rw [← h2]; simpa using hmem
    · rw [← h2]; simpa using hpred

lemma get_any_realm_isSome (l : List (Nat × Realm)) (path : String)
    (i : Nat) (r : Realm) (hmem : (i, r) ∈ l) (hpath : r.m_config.path = path) :
    ∃ s, get_any_realm l path = some s := by
  unfold get_any_realm
  have : (l.find? (fun p => p.2.m_config.path == path)).isSome := by
    rw [List.find?_isSome]
    exact ⟨(i, r), hmem, by simpa using hpath⟩
  cases hf : l.find? (fun p => p.2.m_config.path == path) with
  | none => rw [hf] at this; simp at this
  | some pr => exact ⟨pr.2, rfl⟩

lemma create_and_cache_error (c : Config) (t : Nat) (w : World) (s : Realm)
    (hs : get_any_realm w.live c.path = some s)
    (hcf : config_conflict s.m_config c = true) :
    create_and_cache c t w = Except.error Kind.MismatchedConfig := by
  unfold create_and_cache
  rw [hs]
  simp [hcf]

lemma create_and_cache_ok_of_none (c : Config) (t : Nat) (w : World)
    (hg : get_any_realm w.live c.path = none) :
    create_and_cache c t w = Except.ok (w.next_id,
      { live := (w.next_id, realm_init c t) :: w.live
        next_id := w.next_id + 1
        cache := cache_store c.path t w.next_id w.cache }) := by
  unfold create_and_cache
  rw [hg]

lemma create_and_cache_ok_of_compat (c : Config) (t : Nat) (w : World)
    (s : Realm) (hg : get_any_realm w.live c.path = some s)
    (hcf : config_conflict s.m_config c = false) :
    create_and_cache c t w = Except.ok (w.next_id,
      { live := (w.next_id, realm_init c t) :: w.live
        next_id := w.next_id + 1
        cache := cache_store c.path t w.next_id w.cache }) := by
  unfold create_and_cache
  rw [hg]
  simp [hcf]

lemma create_and_cache_ok (c : Config) (t : Nat) (w : World) (id : Nat)
    (w₁ : World) (h : create_and_cache c t w = Except.ok (id, w₁)) :
    id = w.next_id ∧
    w₁ = { live := (w.next_id, realm_init c t) :: w.live
           next_id := w.next_id + 1
           cache := cache_store c.path t w.next_id w.cache } ∧
    (∀ s, get_any_realm w.live c.path = some s →
      config_conflict s.m_config c = false) := by
  cases hg : get_any_realm w.live c.path with
  | none =>
    rw [create_and_cache_ok_of_none c t w hg] at h
    have h2 := h
    simp only [Except.ok.injEq, Prod.mk.injEq] at h2
    exact ⟨h2.1.symm, h2.2.symm, fun s hs => by cases hs⟩
  | some s =>
    cases hcf : config_conflict s.m_config c with
    | true =>
      rw [create_and_cache_error c t w s hg hcf] at h
      cases h
    | false =>
      rw [create_and_cache_ok_of_compat c t w s hg hcf] at h
      have h2 := h
      simp only [Except.ok.injEq, Prod.mk.injEq] at h2
      refine ⟨h2.1.symm, h2.2.symm, fun s' hs' => ?_⟩
      cases hs'
      exact hcf

lemma drop_filter_cons (c : Config) (t n : Nat) (lv : List (Nat × Realm))
    (hbound : ∀ p ∈ lv, p.1 < n) :
    ((n, realm_init c t) :: lv).filter (fun p => p.1 != n) = lv := by
  rw [List.filter_cons]
  simp only [bne_self_eq_false, Bool.false_eq_true, if_false]
  rw [List.filter_eq_self]
  intro p hp
  have := hbound p hp
  simp [Nat.ne_of_lt this]

/-- After constructing and caching a fresh handle, a second identical
request returns the same handle; after dropping that handle, a further
request purges the stale entry and constructs a strictly fresh handle. -/
lemma created_world_behaviour (c : Config) (t : Nat)
    (lv : List (Nat × Realm)) (n : Nat) (cc : String → Nat → Option Nat)
    (hbound : ∀ p ∈ lv, p.1 < n)
    (hcompat : ∀ s, get_any_realm lv c.path = some s →
      config_conflict s.m_config c = false) :
    get_shared_realm c t
        { live := (n, realm_init c t) :: lv
          next_id := n + 1
          cache := cache_store c.path t n cc } =
      Except.ok (n,
        { live := (n, realm_init c t) :: lv
          next_id := n + 1
          cache := cache_store c.path t n cc }) ∧
    n + 1 ≠ n ∧
    ∃ w₂, get_shared_realm c t
        (drop_handle n
          { live := (n, realm_init c t) :: lv
            next_id := n + 1
            cache := cache_store c.path t n cc }) =
      Except.ok (n + 1, w₂) ∧ w₂.cache c.path t = some (n + 1) := by
  refine ⟨?_, Nat.succ_ne_self n, ?_⟩
  · simp only [get_shared_realm, cache_store_lookup, live_lookup_cons_self,
      config_conflict_self]
    simp [realm_init, config_conflict_self]
  · have hdrop : drop_handle n
        { live := (n, realm_init c t) :: lv
          next_id := n + 1
          cache := cache_store c.path t n cc } =
        { live := lv
          next_id := n + 1
          cache := cache_store c.path t n cc } := by
      unfold drop_handle
      rw [drop_filter_cons c t n lv hbound]
    rw [hdrop]
    have hnone : live_lookup lv n = none :=
      live_lookup_eq_none n lv (fun p hp => Nat.ne_of_lt (hbound p hp))
    simp only [get_shared_realm, cache_store_lookup, hnone]
    cases hg : get_any_realm lv c.path with
    | none =>
      rw [create_and_cache_ok_of_none c t _ hg]
      exact ⟨_, rfl, cache_store_lookup c.path t (n + 1) _⟩
    | some s =>
      rw [create_and_cache_ok_of_compat c t _ s hg (hcompat s hg)]
      exact ⟨_, rfl, cache_store_lookup c.path t (n + 1) _⟩

/-!
## Claim theorems
-/

/-- C10: for every Handle and boolean `b`, `set_auto_refresh b` followed by
`auto_refresh` returns `b`, and `set_auto_refresh` changes nothing besides
the auto-refresh flag: the transaction state, listener set, Configuration,
affinity thread, external notifier and engine connection are unchanged. -/
theorem c10_set_auto_refresh_roundtrip_and_frame (b : Bool) (r : Realm) :
    auto_refresh (set_auto_refresh b r) = b ∧
    (set_auto_refresh b r).m_in_transaction = r.m_in_transaction ∧
    (set_auto_refresh b r).m_notifications = r.m_notifications ∧
    (set_auto_refresh b r).m_config = r.m_config ∧
    (set_auto_refresh b r).m_thread_id = r.m_thread_id ∧
    (set_auto_refresh b r).m_external_notifier = r.m_external_notifier ∧
    (set_auto_refresh b r).m_shared_group = r.m_shared_group :=
  ⟨rfl, rfl, rfl, rfl, rfl, rfl, rfl⟩

/-- C9: `is_in_transaction` returns `m_in_transaction`, which is `true`
exactly when the transaction state is InTransaction; it is `true` after a
successful `begin_transaction`, `false` after a successful
`commit_transaction` or `cancel_transaction`, and `false` on a freshly
constructed Handle.  In the embedding `is_in_transaction` is a pure observer
`Realm → Bool`: it returns no updated state, so it mutates nothing. -/
theorem c9_is_in_transaction_observes_state (r : Realm) (t : Nat)
    (c : Config) (t' : Nat) :
    (is_in_transaction r = true ↔
      transaction_state r = TransactionState.InTransaction) ∧
    ((begin_transaction t r).1 = Except.ok () →
      is_in_transaction (begin_transaction t r).2 = true) ∧
    ((commit_transaction t r).1 = Except.ok () →
      is_in_transaction (commit_transaction t r).2.1 = false) ∧
    ((cancel_transaction t r).1 = Except.ok () →
      is_in_transaction (cancel_transaction t r).2 = false) ∧
    is_in_transaction (realm_init c t') = false := by
  refine ⟨?_, ?_, ?_, ?_, rfl⟩
  · cases hb : r.m_in_transaction <;>
      simp [is_in_transaction, transaction_state, hb]
  · by_cases h : t = r.m_thread_id
    · cases hb : r.m_in_transaction
      · intro _
        simp [begin_transaction, verify_thread, h, hb, is_in_transaction]
      · intro hok
        simp [begin_transaction, verify_thread, h, hb] at hok
    · intro hok
      simp [begin_transaction, verify_thread, h] at hok
  · by_cases h : t = r.m_thread_id
    · cases hb : r.m_in_transaction
      · intro hok
        simp [commit_transaction, verify_thread, h, hb] at hok
      · intro _
        simp [commit_transaction, verify_thread, h, hb, is_in_transaction]
    · intro hok
      simp [commit_transaction, verify_thread, h] at hok
  · by_cases h : t = r.m_thread_id
    · cases hb : r.m_in_transaction
      · intro hok
        simp [cancel_transaction, verify_thread, h, hb] at hok
      · intro _
        simp [cancel_transaction, verify_thread, h, hb, is_in_transaction]
    · intro hok
      simp [cancel_transaction, verify_thread, h] at hok

/-- Witness for C9 at the concrete idle handle `realmIdle` on thread 0. -/
theorem c9_is_in_transaction_observes_state_witness :
    (is_in_transaction realmIdle = true ↔
      transaction_state realmIdle = TransactionState.InTransaction) ∧
    ((begin_transaction 0 realmIdle).1 = Except.ok () →
      is_in_transaction (begin_transaction 0 realmIdle).2 = true) ∧
    ((commit_transaction 0 realmIdle).1 = Except.ok () →
      is_in_transaction (commit_transaction 0 realmIdle).2.1 = false) ∧
    ((cancel_transaction 0 realmIdle).1 = Except.ok () →
      is_in_transaction (cancel_transaction 0 realmIdle).2 = false) ∧
    is_in_transaction (realm_init configA 1) = false :=
  c9_is_in_transaction_observes_state realmIdle 0 configA 1

/-- C8: over a duplicate-free listener set, `add_notification` is idempotent
by identity — a second registration of the same listener leaves the set
unchanged and the listener holds exactly one registration — while
`remove_notification` removes exactly one registration when the token is
present and is a no-op when it is absent.  The registration token is the
listener's own identity. -/
theorem c8_notification_registration (r : Realm) (l : Listener)
    (hnd : r.m_notifications.Nodup) :
    add_notification l (add_notification l r) = add_notification l r ∧
    (add_notification l r).m_notifications.count l = 1 ∧
    (l ∈ r.m_notifications →
      (remove_notification l r).m_notifications.length + 1 =
        r.m_notifications.length ∧
      l ∉ (remove_notification l r).m_notifications) ∧
    (l ∉ r.m_notifications → remove_notification l r = r) := by
  refine ⟨?_, ?_, ?_, ?_⟩
  · show ({ add_notification l r with
        m_notifications :=
          listener_insert l (add_notification l r).m_notifications } =
      add_notification l r)
    rw [show (add_notification l r).m_notifications =
        listener_insert l r.m_notifications from rfl]
    rw [listener_insert_idem]
    rfl
  · exact listener_insert_count l r.m_notifications hnd
  · intro hmem
    constructor
    · exact List.length_erase_add_one hmem
    · show l ∉ r.m_notifications.erase l
      rw [hnd.mem_erase_iff]
      simp
  · intro hmem
    show ({ r with m_notifications := r.m_notifications.erase l } = r)
    rw [List.erase_of_not_mem hmem]

/-- Witness for C8 at the concrete handle `realmIdle` (empty, hence
duplicate-free, listener set) and listener 7. -/
theorem c8_notification_registration_witness :
    add_notification 7 (add_notification 7 realmIdle) =
      add_notification 7 realmIdle ∧
    (add_notification 7 realmIdle).m_notifications.count 7 = 1 ∧
    (7 ∈ realmIdle.m_notifications →
      (remove_notification 7 realmIdle).m_notifications.length + 1 =
        realmIdle.m_notifications.length ∧
      7 ∉ (remove_notification 7 realmIdle).m_notifications) ∧
    (7 ∉ realmIdle.m_notifications → remove_notification 7 realmIdle = realmIdle) :=
  c8_notification_registration realmIdle 7 List.nodup_nil

/-- C1: from the affinity thread, `commit_transaction` and
`cancel_transaction` called while Idle fail with `InvalidTransaction` and
change no state (and fire nothing); `begin_transaction` called while
InTransaction fails with `InvalidTransaction` and changes no state; and a
failed `begin_transaction` from an Idle state leaves the state Idle. -/
theorem c1_transaction_state_machine_rejections (t : Nat) (r : Realm)
    (h : t = r.m_thread_id) :
    (r.m_in_transaction = false →
      commit_transaction t r = (Except.error Kind.InvalidTransaction, r, []) ∧
      cancel_transaction t r = (Except.error Kind.InvalidTransaction, r)) ∧
    (r.m_in_transaction = true →
      begin_transaction t r = (Except.error Kind.InvalidTransaction, r)) ∧
    (∀ t' k, r.m_in_transaction = false →
      (begin_transaction t' r).1 = Except.error k →
      (begin_transaction t' r).2.m_in_transaction = false) := by
  refine ⟨?_, ?_, ?_⟩
  · intro hb
    constructor
    · simp [commit_transaction, verify_thread, h, hb]
    · simp [cancel_transaction, verify_thread, h, hb]
  · intro hb
    simp [begin_transaction, verify_thread, h, hb]
  · intro t' k hb
    by_cases ht : t' = r.m_thread_id
    · intro hk
      simp [begin_transaction, verify_thread, ht, hb] at hk
    · intro _
      simp [begin_transaction, verify_thread, ht, hb]

/-- Witness for C1 at the concrete idle handle `realmIdle` on thread 0. -/
theorem c1_transaction_state_machine_rejections_witness :
    (realmIdle.m_in_transaction = false →
      commit_transaction 0 realmIdle =
        (Except.error Kind.InvalidTransaction, realmIdle, []) ∧
      cancel_transaction 0 realmIdle =
        (Except.error Kind.InvalidTransaction, realmIdle)) ∧
    (realmIdle.m_in_transaction = true →
      begin_transaction 0 realmIdle =
        (Except.error Kind.InvalidTransaction, realmIdle)) ∧
    (∀ t' k, realmIdle.m_in_transaction = false →
      (begin_transaction t' realmIdle).1 = Except.error k →
      (begin_transaction t' realmIdle).2.m_in_transaction = false) :=
  c1_transaction_state_machine_rejections 0 realmIdle rfl

/-- C2: from the affinity thread, a `commit_transaction` on a handle in
InTransaction succeeds, commits the underlying write transaction, moves the
state to Idle, fires exactly one DidChangeNotification to every
currently-registered local listener exactly once (and nothing else locally),
and afterwards (last in the firing order) invokes the external notifier hook
exactly when one is set, regardless of whether any local listener exists. -/
theorem c2_commit_success_behaviour (t : Nat) (r : Realm)
    (h : t = r.m_thread_id) (hin : r.m_in_transaction = true)
    (hnd : r.m_notifications.Nodup) :
    ∃ r' ns, commit_transaction t r = (Except.ok (), r', ns) ∧
      r'.m_in_transaction = false ∧
      r'.m_shared_group.committed = r.m_shared_group.committed + 1 ∧
      r'.m_notifications = r.m_notifications ∧
      (∀ l, l ∈ r.m_notifications →
        ns.count (Firing.localFiring l DidChangeNotification) = 1) ∧
      (∀ l nm, Firing.localFiring l nm ∈ ns →
        l ∈ r.m_notifications ∧ nm = DidChangeNotification) ∧
      (Firing.externalFiring ∈ ns ↔ r.m_external_notifier.isSome = true) ∧
      (r.m_external_notifier.isSome = true →
        ns.getLast? = some Firing.externalFiring) := by
  have hinj : Function.Injective
      (fun l : Listener => Firing.localFiring l DidChangeNotification) := by
    intro a b hab
    simpa using hab
  refine ⟨{ r with
            m_in_transaction := false
            m_shared_group := r.m_shared_group.commit },
          send_local_notifications
            { r with
              m_in_transaction := false
              m_shared_group := r.m_shared_group.commit } DidChangeNotification
            ++ send_external_notifications
                { r with
                  m_in_transaction := false
                  m_shared_group := r.m_shared_group.commit },
          ?_, rfl, rfl, rfl, ?_, ?_, ?_, ?_⟩
  · simp [commit_transaction, verify_thread, h, hin]
  · intro l hl
    rw [List.count_append]
    have h1 : (send_local_notifications
        { r with
          m_in_transaction := false
          m_shared_group := r.m_shared_group.commit } DidChangeNotification).count
        (Firing.localFiring l DidChangeNotification) = 1 := by
      unfold send_local_notifications
      rw [List.count_map_of_injective _ _ hinj]
      exact List.count_eq_one_of_mem hnd hl
    have h2 : (send_external_notifications
        { r with
          m_in_transaction := false
          m_shared_group := r.m_shared_group.commit }).count
        (Firing.localFiring l DidChangeNotification) = 0 := by
      unfold send_external_notifications
      cases r.m_external_notifier <;> simp
    rw [h1, h2]
  · intro l nm hmem
    rw [List.mem_append] at hmem
    cases hmem with
    | inl hloc =>
      unfold send_local_notifications at hloc
      rw [List.mem_map] at hloc
      obtain ⟨a, ha, hea⟩ := hloc
      have h1 : a = l ∧ DidChangeNotification = nm := by simpa using hea
      exact ⟨h1.1 ▸ ha, h1.2.symm⟩
    | inr hext =>
      unfold send_external_notifications at hext
      cases ho : r.m_external_notifier <;> rw [ho] at hext <;> simp at hext
  · rw [List.mem_append]
    constructor
    · intro hmem
      cases hmem with
      | inl hloc =>
        unfold send_local_notifications at hloc
        rw [List.mem_map] at hloc
        obtain ⟨a, _, hea⟩ := hloc
        simp at hea
      | inr hext =>
        unfold send_external_notifications at hext
        cases ho : r.m_external_notifier with
        | none => rw [ho] at hext; simp at hext
        | some u => simp [ho]
    · intro hs
      right
      unfold send_external_notifications
      cases ho : r.m_external_notifier with
      | none => rw [ho] at hs; simp at hs
      | some u => simp
  · intro hs
    cases ho : r.m_external_notifier with
    | none => rw [ho] at hs; simp at hs
    | some u =>
      show ((send_local_notifications _ DidChangeNotification)
          ++ send_external_notifications _).getLast? = _
      unfold send_external_notifications
      simp only [ho]
      exact List.getLast?_concat _

/-- Witness for C2 at the concrete in-transaction handle `realmBusy`
(thread 0, one registered listener, external notifier set). -/
theorem c2_commit_success_behaviour_witness :
    ∃ r' ns, commit_transaction 0 realmBusy = (Except.ok (), r', ns) ∧
      r'.m_in_transaction = false ∧
      r'.m_shared_group.committed = realmBusy.m_shared_group.committed + 1 ∧
      r'.m_notifications = realmBusy.m_notifications ∧
      (∀ l, l ∈ realmBusy.m_notifications →
        ns.count (Firing.localFiring l DidChangeNotification) = 1) ∧
      (∀ l nm, Firing.localFiring l nm ∈ ns →
        l ∈ realmBusy.m_notifications ∧ nm = DidChangeNotification) ∧
      (Firing.externalFiring ∈ ns ↔ realmBusy.m_external_notifier.isSome = true) ∧
      (realmBusy.m_external_notifier.isSome = true →
        ns.getLast? = some Firing.externalFiring) :=
  c2_commit_success_behaviour 0 realmBusy rfl rfl (by decide)

/-- C5: from the affinity thread, `update_schema` with a target version
strictly below the persisted version fails with `InvalidSchemaVersion`,
leaving the handle and the file (so the persisted version and structure)
untouched: migrations are strictly forward-only. -/
theorem c5_migration_forward_only (t : Nat) (r : Realm) (f : File)
    (s : Schema) (v : Nat) (h : t = r.m_thread_id) (hv : v < f.version) :
    update_schema t r f s v =
      (Except.error (UpdateSchemaError.realmError Kind.InvalidSchemaVersion),
       r, f) := by
  have hne : ¬(v = f.version ∧ s = f.schema) := by
    intro hc
    exact absurd hc.1 (Nat.ne_of_lt hv)
  simp [update_schema, verify_thread, h, hv, hne]

/-- Witness for C5: requesting version 1 on a file persisted at version 2
fails with `InvalidSchemaVersion` and writes nothing. -/
theorem c5_migration_forward_only_witness :
    update_schema 0 realmIdle fileV2 [] 1 =
      (Except.error (UpdateSchemaError.realmError Kind.InvalidSchemaVersion),
       realmIdle, fileV2) :=
  c5_migration_forward_only 0 realmIdle fileV2 [] 1 rfl (by decide)

/-- C6: whenever `update_schema` fails — in particular when the migration
callback fails inside the migration transaction — the error propagates to
the caller while the transaction rolls back entirely: the resulting handle
and file are exactly the pre-migration ones, so the file stays at its
pre-migration persisted schema version. -/
theorem c6_failed_migration_rolls_back (t : Nat) (r : Realm) (f : File)
    (s : Schema) (v : Nat) (e : UpdateSchemaError) (rr : Realm) (ff : File)
    (h : update_schema t r f s v = (Except.error e, rr, ff)) :
    rr = r ∧ ff = f := by
  unfold update_schema at h
  repeat' split at h
  all_goals simp_all

/-- C4: in any process state satisfying the cache invariants, an attempt to
open a handle for path P whose Configuration disagrees with a live handle's
Configuration on `read_only` or `in_memory` fails with `MismatchedConfig` —
the live conflicting handle may have been opened first or be found in any
order, since the statement quantifies over all such states. -/
theorem c4_conflicting_config_fails (c : Config) (t : Nat) (w : World)
    (i : Nat) (r : Realm) (hinv : WorldInv w) (hmem : (i, r) ∈ w.live)
    (hpath : r.m_config.path = c.path)
    (hconf : r.m_config.read_only ≠ c.read_only ∨
      r.m_config.in_memory ≠ c.in_memory) :
    get_shared_realm c t w = Except.error Kind.MismatchedConfig := by
  obtain ⟨hb, hpc, hcc⟩ := hinv
  obtain ⟨s, hs⟩ := get_any_realm_isSome w.live c.path i r hmem hpath
  obtain ⟨⟨j, hjmem⟩, hspath⟩ := get_any_realm_mem w.live c.path s hs
  have hagree := hcc (j, s) hjmem (i, r) hmem (by rw [hspath, hpath])
  have hscf : config_conflict s.m_config c = true := by
    rw [config_conflict_eq_true_iff]
    cases hconf with
    | inl h1 => exact Or.inl (hagree.1 ▸ h1)
    | inr h2 => exact Or.inr (hagree.2 ▸ h2)
  cases hc : w.cache c.path t with
  | none =>
    simp only [get_shared_realm, hc]
    exact create_and_cache_error c t w s hs hscf
  | some id =>
    cases hl : live_lookup w.live id with
    | none =>
      simp only [get_shared_realm, hc, hl]
      exact create_and_cache_error c t _ s hs hscf
    | some r' =>
      have hpath' : r'.m_config.path = c.path := hpc c.path t id hc r' hl
      have hmem' : (id, r') ∈ w.live := live_lookup_mem id w.live r' hl
      have hagree' := hcc (id, r') hmem' (i, r) hmem (by rw [hpath', hpath])
      have hcf' : config_conflict r'.m_config c = true := by
        rw [config_conflict_eq_true_iff]
        cases hconf with
        | inl h1 => exact Or.inl (hagree'.1 ▸ h1)
        | inr h2 => exact Or.inr (hagree'.2 ▸ h2)
      simp [get_shared_realm, hc, hl, hcf']

/-- Witness for C4: with one live read-write handle for the path, requesting
the same path read-only fails with `MismatchedConfig`. -/
theorem c4_conflicting_config_fails_witness :
    get_shared_realm configRO 3 worldA = Except.error Kind.MismatchedConfig := by
  have hinv : WorldInv worldA := by
    refine ⟨?_, ?_, ?_⟩
    · intro p hp
      simp only [worldA, List.mem_singleton] at hp
      rw [hp]
      decide
    · intro path t id hcache r hr
      by_cases hp : path = configA.path ∧ t = 0
      · have h0 : id = 0 := by
          simp only [worldA, cache_store, world_empty] at hcache
          rw [if_pos hp] at hcache
          exact (Option.some.inj hcache).symm
        rw [h0] at hr
        have h1 : r = realm_init configA 0 := by
          simp only [worldA] at hr
          rw [live_lookup_cons_self] at hr
          exact (Option.some.inj hr).symm
        rw [h1, hp.1]
        rfl
      · simp only [worldA, cache_store, world_empty] at hcache
        rw [if_neg hp] at hcache
        cases hcache
    · intro p hp q hq _
      simp only [worldA, List.mem_singleton] at hp hq
      rw [hp, hq]
      exact ⟨rfl, rfl⟩
  exact c4_conflicting_config_fails configRO 3 worldA 0 (realm_init configA 0)
    hinv (by simp [worldA]) rfl (Or.inl (by decide))

/-- C3: in any process state satisfying the cache invariants, if
`get_shared_realm` returns a handle, then a second identical request from
the same thread returns the *same* handle instance in the same state; and
once that handle is dropped, the stale cache entry is purged and the next
identical request constructs and returns a fresh handle (the next allocation
identifier, distinct from the old one) and caches it. -/
theorem c3_same_thread_cache_identity (c : Config) (t : Nat) (w : World)
    (id : Nat) (w₁ : World) (hinv : WorldInv w)
    (h : get_shared_realm c t w = Except.ok (id, w₁)) :
    get_shared_realm c t w₁ = Except.ok (id, w₁) ∧
    w₁.next_id ≠ id ∧
    ∃ w₂, get_shared_realm c t (drop_handle id w₁) =
        Except.ok (w₁.next_id, w₂) ∧
      w₂.cache c.path t = some w₁.next_id := by
  obtain ⟨hb, hpc, hcc⟩ := hinv
  unfold get_shared_realm at h
  cases hc : w.cache c.path t with
  | none =>
    simp only [hc] at h
    obtain ⟨hid, hw₁, hcompat⟩ := create_and_cache_ok c t w id w₁ h
    rw [hid, hw₁]
    exact created_world_behaviour c t w.live w.next_id w.cache hb hcompat
  | some id' =>
    simp only [hc] at h
    cases hl : live_lookup w.live id' with
    | none =>
      simp only [hl] at h
      obtain ⟨hid, hw₁, hcompat⟩ :=
        create_and_cache_ok c t { w with cache := cache_purge c.path t w.cache }
          id w₁ h
      rw [hid, hw₁]
      exact created_world_behaviour c t w.live w.next_id
        (cache_purge c.path t w.cache) hb hcompat
    | some r' =>
      simp only [hl] at h
      cases hcf : config_conflict r'.m_config c with
      | true => simp [hcf] at h
      | false =>
        simp only [hcf, Bool.false_eq_true, if_false, Except.ok.injEq,
          Prod.mk.injEq] at h
        obtain ⟨hid, hw₁⟩ := h
        have hmem' : (id', r') ∈ w.live := live_lookup_mem id' w.live r' hl
        have hlt : id' < w.next_id := hb (id', r') hmem'
        have hpath' : r'.m_config.path = c.path := hpc c.path t id' hc r' hl
        subst hid
        rw [← hw₁]
        refine ⟨?_, fun hne => absurd hne.symm (Nat.ne_of_lt hlt), ?_⟩
        · simp [get_shared_realm, hc, hl, hcf]
        · have hfilter : ∀ p ∈ w.live.filter (fun p => p.1 != id'), p.1 ≠ id' := by
            intro p hp
            have := List.of_mem_filter hp
            simpa using this
          have hnone : live_lookup (w.live.filter (fun p => p.1 != id')) id' = none :=
            live_lookup_eq_none id' _ hfilter
          have hcompat2 : ∀ s,
              get_any_realm (w.live.filter (fun p => p.1 != id')) c.path = some s →
              config_conflict s.m_config c = false := by
            intro s hs
            obtain ⟨⟨j, hjmem⟩, hspath⟩ := get_any_realm_mem _ c.path s hs
            have hjm : (j, s) ∈ w.live := List.mem_of_mem_filter hjmem
            have hagree := hcc (j, s) hjm (id', r') hmem' (by rw [hspath, hpath'])
            have hr' := (config_conflict_eq_false_iff r'.m_config c).mp hcf
            rw [config_conflict_eq_false_iff]
            exact ⟨hagree.1.trans hr'.1, hagree.2.trans hr'.2⟩
          show ∃ w₂, get_shared_realm c t (drop_handle id' w) =
              Except.ok (w.next_id, w₂) ∧ w₂.cache c.path t = some w.next_id
          unfold drop_handle
          simp only [get_shared_realm, hc, hnone]
          cases hg : get_any_realm (w.live.filter (fun p => p.1 != id')) c.path with
          | none =>
            rw [create_and_cache_ok_of_none c t _ hg]
            exact ⟨_, rfl, cache_store_lookup c.path t w.next_id _⟩
          | some s =>
            rw [create_and_cache_ok_of_compat c t _ s hg (hcompat2 s hg)]
            exact ⟨_, rfl, cache_store_lookup c.path t w.next_id _⟩

/-- Witness for C3: opening `configA` on thread 0 from the empty process
state yields handle 0 in state `worldA`; reopening returns the same handle;
after dropping it, reopening yields the fresh handle 1. -/
theorem c3_same_thread_cache_identity_witness :
    get_shared_realm configA 0 world_empty = Except.ok (0, worldA) ∧
    (get_shared_realm configA 0 worldA = Except.ok (0, worldA) ∧
     worldA.next_id ≠ 0 ∧
     ∃ w₂, get_shared_realm configA 0 (drop_handle 0 worldA) =
         Except.ok (worldA.next_id, w₂) ∧
       w₂.cache configA.path 0 = some worldA.next_id) := by
  have hinv : WorldInv world_empty := by
    refine ⟨?_, ?_, ?_⟩
    · intro p hp
      simp [world_empty] at hp
    · intro path t id hcache
      simp [world_empty] at hcache
    · intro p hp
      simp [world_empty] at hp
  have h : get_shared_realm configA 0 world_empty = Except.ok (0, worldA) := rfl
  exact ⟨h, c3_same_thread_cache_identity configA 0 world_empty 0 worldA hinv h⟩

/-- Counterexample to C7 as stated: `add_notification` is a notification
method whose inline header body is exactly `m_notifications.insert(n)` — it
contains no `verify_thread()` call.  Called from thread 0 on a handle with
affinity thread 1, it does not fail with `IncorrectThread`; it succeeds and
mutates the listener set. -/
theorem c7_counterexample_add_notification_unverified :
    (0 : Nat) ≠ realmT1.m_thread_id ∧
    (add_notification_call 0 realmT1 5).1 = Except.ok () ∧
    (add_notification_call 0 realmT1 5).2.m_notifications = [5] ∧
    realmT1.m_notifications = [] := by
  refine ⟨by decide, rfl, ?_, rfl⟩
  decide

/-- C7 as amended: `verify_thread()` guards every public operation except
construction, destruction, cache bookkeeping and the inline-bodied
notification-registration methods — so `begin_transaction`,
`commit_transaction`, `cancel_transaction`, `update_schema`, `refresh`,
`notify`, `invalidate` and `compact` invoked from a thread other than the
affinity thread always fail with `IncorrectThread`, mutating nothing and
firing nothing; only `add_notification` and `remove_notification` (whose
inline bodies contain no thread check) execute their mutation whatever
thread calls them. -/
theorem c7_thread_check_coverage (t : Nat) (r : Realm) (l : Listener)
    (f : File) (s : Schema) (v latest : Nat) (h : t ≠ r.m_thread_id) :
    begin_transaction t r = (Except.error Kind.IncorrectThread, r) ∧
    commit_transaction t r = (Except.error Kind.IncorrectThread, r, []) ∧
    cancel_transaction t r = (Except.error Kind.IncorrectThread, r) ∧
    update_schema t r f s v =
      (Except.error (UpdateSchemaError.realmError Kind.IncorrectThread), r, f) ∧
    refresh t r latest = (Except.error Kind.IncorrectThread, r, []) ∧
    notify t r latest = (Except.error Kind.IncorrectThread, r, []) ∧
    invalidate t r = (Except.error Kind.IncorrectThread, r) ∧
    compact t r = (Except.error Kind.IncorrectThread, r) ∧
    add_notification_call t r l = (Except.ok (), add_notification l r) ∧
    remove_notification_call t r l = (Except.ok (), remove_notification l r) := by
  refine ⟨?_, ?_, ?_, ?_, ?_, ?_, ?_, ?_, rfl, rfl⟩
  · simp [begin_transaction, verify_thread, h]
  · simp [commit_transaction, verify_thread, h]
  · simp [cancel_transaction, verify_thread, h]
  · simp [update_schema, verify_thread, h]
  · simp [refresh, verify_thread, h]
  · simp [notify, verify_thread, h]
  · simp [invalidate, verify_thread, h]
  · simp [compact, verify_thread, h]

/-- Witness for the amended C7 at thread 0 against the affinity-thread-1
handle `realmT1`. -/
theorem c7_thread_check_coverage_witness :
    begin_transaction 0 realmT1 = (Except.error Kind.IncorrectThread, realmT1) ∧
    commit_transaction 0 realmT1 =
      (Except.error Kind.IncorrectThread, realmT1, []) ∧
    cancel_transaction 0 realmT1 = (Except.error Kind.IncorrectThread, realmT1) ∧
    update_schema 0 realmT1 fileV2 [] 2 =
      (Except.error (UpdateSchemaError.realmError Kind.IncorrectThread),
       realmT1, fileV2) ∧
    refresh 0 realmT1 4 = (Except.error Kind.IncorrectThread, realmT1, []) ∧
    notify 0 realmT1 4 = (Except.error Kind.IncorrectThread, realmT1, []) ∧
    invalidate 0 realmT1 = (Except.error Kind.IncorrectThread, realmT1) ∧
    compact 0 realmT1 = (Except.error Kind.IncorrectThread, realmT1) ∧
    add_notification_call 0 realmT1 5 =
      (Except.ok (), add_notification 5 realmT1) ∧
    remove_notification_call 0 realmT1 5 =
      (Except.ok (), remove_notification 5 realmT1) :=
  c7_thread_check_coverage 0 realmT1 5 fileV2 [] 2 4 (by decide)
theorem c6_failed_migration_rolls_back_witness :
    update_schema 0 realmFail fileV2 [("Cat", [])] 3 =
      (Except.error UpdateSchemaError.migrationFailed, realmFail, fileV2) ∧
    (realmFail = realmFail ∧ fileV2 = fileV2) :=
  ⟨rfl,
   c6_failed_migration_rolls_back 0 realmFail fileV2 [("Cat", [])] 3
     UpdateSchemaError.migrationFailed realmFail fileV2 rfl⟩

end RealmSpec
